import Mathlib

/-!
Verification of the SDN BLE Control Plane Bridge (`sdn_ble_bridge.py`).

The bridge's core is embedded shallowly:
* the operating-system boundary (`subprocess.run`) is an oracle
  `run : String → ProcOutcome` giving, for each full command line, how the
  spawned process ends (completion with a return code and stdout, timeout,
  or a spawn exception);
* `adb_exec`, `handle_radio_request`, the radio-request notification
  callback, `send_command` and the drain loop of `run_loop` are translated
  line by line, with their observable side effects (executor invocations,
  `time.sleep` durations, queue contents, write attempts) made explicit in
  the return values.
-/

namespace SdnBleBridge

/-- Outcome of the one `subprocess.run` call inside `adb_exec`:
the process completed (with a return code and captured stdout), the
10-second timeout fired (`subprocess.TimeoutExpired`), or spawning the
process raised some other exception carrying a message. -/
inductive ProcOutcome where
  | completed (returncode : Int) (stdout : String)
  | timedOut
  | spawnError (msg : String)
deriving DecidableEq, Repr

/-- `adb_exec(command)` from the source: builds `adb shell <command>`, runs
it, and returns `(success, output)`.  On completion, `success` is
`returncode == 0` and `output` is `result.stdout.strip()`; on
`TimeoutExpired` it returns `(False, "timeout")`; on any other exception
`e` it returns `(False, str(e))`.  It is total: no failure mode escapes. -/
def adb_exec (run : String → ProcOutcome) (command : String) : Bool × String :=
  let full_cmd := "adb shell " ++ command
  match run full_cmd with
  | .completed rc out => (decide (rc = 0), out.trim)
  | .timedOut => (false, "timeout")
  | .spawnError e => (false, e)

/-- A confirmation payload sent back to the phone: the dicts literally
built in `handle_radio_request`, always with the three keys
`action`, `sessionId`, `reason`. -/
structure Confirmation where
  action : String
  sessionId : String
  reason : String
deriving DecidableEq, Repr

/-- Observable result of one `handle_radio_request` call: the returned
confirmation dict, the ADB sub-commands passed to `adb_exec` in order,
and the `time.sleep` durations performed in order. -/
structure HandlerResult where
  conf : Confirmation
  calls : List String
  waits : List Nat
deriving DecidableEq, Repr

/-- `handle_radio_request(action, reason)` from the source: the dispatch
over the four known action strings and the fall-through `UNKNOWN` branch.
Each branch records which ADB sub-command it executed and which
`time.sleep` calls it performed (`sleep(2)` only on successful
`enable_bt`, `sleep(3)` only on successful `enable_wifi`). -/
def handle_radio_request (run : String → ProcOutcome) (action reason : String) :
    HandlerResult :=
  let _ := reason
  if action = "enable_bt" then
    let success := (adb_exec run "svc bluetooth enable").1
    if success then
      { conf := ⟨"BT_READY", "ble-bridge", "ADB enable_bt OK"⟩,
        calls := ["svc bluetooth enable"], waits := [2] }
    else
      { conf := ⟨"BT_READY", "ble-bridge", "ADB enable_bt FAILED"⟩,
        calls := ["svc bluetooth enable"], waits := [] }
  else if action = "disable_bt" then
    let success := (adb_exec run "svc bluetooth disable").1
    { conf := ⟨"BT_DISABLED", "ble-bridge",
        "ADB disable_bt " ++ (if success then "OK" else "FAILED")⟩,
      calls := ["svc bluetooth disable"], waits := [] }
  else if action = "enable_wifi" then
    let success := (adb_exec run "svc wifi enable").1
    if success then
      { conf := ⟨"WIFI_READY", "ble-bridge", "ADB enable_wifi OK"⟩,
        calls := ["svc wifi enable"], waits := [3] }
    else
      { conf := ⟨"WIFI_READY", "ble-bridge", "ADB enable_wifi FAILED"⟩,
        calls := ["svc wifi enable"], waits := [] }
  else if action = "disable_wifi" then
    let success := (adb_exec run "svc wifi disable").1
    { conf := ⟨"WIFI_DISABLED", "ble-bridge",
        "ADB disable_wifi " ++ (if success then "OK" else "FAILED")⟩,
      calls := ["svc wifi disable"], waits := [] }
  else
    { conf := ⟨"UNKNOWN", "ble-bridge", "Unknown action: " ++ action⟩,
      calls := [], waits := [] }

/-- How far an inbound radio-request byte payload gets through the
callback's decode pipeline before `handle_radio_request` is reached:
`data.decode("utf-8")` raises (`decodeFail`), `json.loads` raises
(`parseFail`), the parsed value is not a dict so `request.get` raises
`AttributeError` (`nonObject`), or it is a dict whose optional `action`
and `reason` string fields are given (`object`).  The payload `"{}"`
corresponds to `object none none`: `json.loads "{}"` yields an empty
dict, so both `.get` calls fall back to their defaults. -/
inductive InboundPayload where
  | decodeFail
  | parseFail
  | nonObject
  | object (action : Option String) (reason : Option String)
deriving DecidableEq, Repr

/-- Observable result of one `_on_radio_request_notify` callback run: the
`pending_commands` queue after the callback returns, and the ADB
sub-commands executed during it. -/
structure DispatchResult where
  pending_commands : List Confirmation
  calls : List String
deriving DecidableEq, Repr

/-- `SdnBleController._on_radio_request_notify` from the source, applied
to the `pending_commands` queue `q` it captures through `self`.  The
whole body sits in a `try`: any decode/parse/attribute failure jumps to
the `except` branch, which only logs — queue untouched, no executor call,
nothing raised past the callback.  On a successful parse, the defaults
`request.get("action", "unknown")` and `request.get("reason", "")` are
applied, `handle_radio_request` runs synchronously, and its confirmation
is appended to the queue. -/
def on_radio_request_notify (run : String → ProcOutcome) (p : InboundPayload)
    (q : List Confirmation) : DispatchResult :=
  match p with
  | .decodeFail => ⟨q, []⟩
  | .parseFail => ⟨q, []⟩
  | .nonObject => ⟨q, []⟩
  | .object a r =>
    let action := a.getD "unknown"
    let reason := r.getD ""
    let res := handle_radio_request run action reason
    ⟨q ++ [res.conf], res.calls⟩

/-- Whether the one `write_gatt_char` call inside `send_command`
succeeds or raises (with a message). -/
inductive WriteOutcome where
  | ok
  | error (msg : String)
deriving DecidableEq, Repr

/-- Observable effect of one `send_command` call: the early return when
not connected (only an error is logged), a successful write, or a write
that raised and was caught and logged (the payload is dropped). -/
inductive SendEffect where
  | noSend
  | sent
  | writeDropped (msg : String)
deriving DecidableEq, Repr

/-- `SdnBleController.send_command` from the source.  `clientConnected`
models `self.client`: `none` when the client is unset, `some b` when a
client exists with `is_connected = b`.  If there is no connected client
the function logs and returns before any write; otherwise exactly one
`write_gatt_char` is attempted, and an exception from it is caught and
logged with no retry. -/
def send_command (clientConnected : Option Bool) (write : WriteOutcome) :
    SendEffect :=
  match clientConnected with
  | none => .noSend
  | some false => .noSend
  | some true =>
    match write with
    | .ok => .sent
    | .error e => .writeDropped e

/-- Number of transport writes attempted by one `send_command` call. -/
def writeAttempts : SendEffect → Nat
  | .noSend => 0
  | .sent => 1
  | .writeDropped _ => 1

/-- The inner `while self.pending_commands:` drain of
`SdnBleController.run_loop`, abstracted over send success: each iteration
pops index 0 and then awaits `send_command` on the popped item.  Returns
the sequence of items in the order they were popped (they leave the queue
whether or not their send succeeds) together with the final queue. -/
def drainAll : List Confirmation → List Confirmation × List Confirmation
  | [] => ([], [])
  | c :: rest =>
    let res := drainAll rest
    (c :: res.1, res.2)

/-- The same drain of `run_loop`, tracking delivery: `sendOk c` tells
whether the transport write for `c` succeeds.  Returns the delivered
items in order and the final queue; an item is popped before its send is
attempted, so a failed send leaves it in neither component. -/
def run_loop_drain (sendOk : Confirmation → Bool) :
    List Confirmation → List Confirmation × List Confirmation
  | [] => ([], [])
  | c :: rest =>
    let delivered := if sendOk c then [c] else []
    let res := run_loop_drain sendOk rest
    (delivered ++ res.1, res.2)

/-- C1: for each of the four known actions and both executor outcomes,
`handle_radio_request` returns exactly the confirmation of the §4.2
table: `enable_bt`/`enable_wifi` carry `BT_READY`/`WIFI_READY` even on
failure, differing only in the `OK`/`FAILED` reason text; the disable
actions carry `BT_DISABLED`/`WIFI_DISABLED` with embedded `OK`/`FAILED`;
and every confirmation carries `sessionId = "ble-bridge"`. -/
theorem handle_confirmation_table (run : String → ProcOutcome) (reason : String) :
    ((handle_radio_request run "enable_bt" reason).conf =
      ⟨"BT_READY", "ble-bridge",
        if (adb_exec run "svc bluetooth enable").1 then "ADB enable_bt OK"
        else "ADB enable_bt FAILED"⟩)
    ∧ ((handle_radio_request run "disable_bt" reason).conf =
      ⟨"BT_DISABLED", "ble-bridge",
        if (adb_exec run "svc bluetooth disable").1 then "ADB disable_bt OK"
        else "ADB disable_bt FAILED"⟩)
    ∧ ((handle_radio_request run "enable_wifi" reason).conf =
      ⟨"WIFI_READY", "ble-bridge",
        if (adb_exec run "svc wifi enable").1 then "ADB enable_wifi OK"
        else "ADB enable_wifi FAILED"⟩)
    ∧ ((handle_radio_request run "disable_wifi" reason).conf =
      ⟨"WIFI_DISABLED", "ble-bridge",
        if (adb_exec run "svc wifi disable").1 then "ADB disable_wifi OK"
        else "ADB disable_wifi FAILED"⟩) := by
  refine ⟨?_, ?_, ?_, ?_⟩ <;>
    simp only [handle_radio_request, if_true, if_false, reduceIte] <;>
    rcases h : (adb_exec run "svc bluetooth enable").1 <;>
    rcases h2 : (adb_exec run "svc bluetooth disable").1 <;>
    rcases h3 : (adb_exec run "svc wifi enable").1 <;>
    rcases h4 : (adb_exec run "svc wifi disable").1 <;>
    simp [h, h2, h3, h4]

/-- C2: for every successfully decoded and parsed inbound radio-request
payload (any combination of present/absent `action` and `reason` fields),
the callback appends exactly one confirmation to the `pending_commands`
queue before returning: the new queue is the old one with a single item
appended at the end. -/
theorem notify_appends_exactly_one (run : String → ProcOutcome)
    (a r : Option String) (q : List Confirmation) :
    ∃ c, (on_radio_request_notify run (.object a r) q).pending_commands = q ++ [c] :=
  ⟨_, rfl⟩

/-- C3: for every action string outside the four known ones,
`handle_radio_request` returns the `UNKNOWN` confirmation with reason
`"Unknown action: <action>"` and session id `"ble-bridge"`, executes no
ADB command, and performs no wait. -/
theorem handle_unknown_action (run : String → ProcOutcome) (action reason : String)
    (h : action ∉ ["enable_bt", "disable_bt", "enable_wifi", "disable_wifi"]) :
    handle_radio_request run action reason =
      ⟨⟨"UNKNOWN", "ble-bridge", "Unknown action: " ++ action⟩, [], []⟩ := by
  simp only [List.mem_cons, List.not_mem_nil, or_false, not_or] at h
  obtain ⟨h1, h2, h3, h4⟩ := h
  simp [handle_radio_request, h1, h2, h3, h4]

/-- Witness for C3 at the concrete unknown action `"reboot"`. -/
theorem handle_unknown_action_witness :
    handle_radio_request (fun _ => ProcOutcome.timedOut) "reboot" "" =
      ⟨⟨"UNKNOWN", "ble-bridge", "Unknown action: reboot"⟩, [], []⟩ :=
  handle_unknown_action (fun _ => ProcOutcome.timedOut) "reboot" "" (by decide)

/-- C4: every malformed inbound radio-request payload — UTF-8 decode
failure, JSON parse failure, or a parsed value that is not the expected
object structure — leaves the `pending_commands` queue unchanged and
executes zero ADB commands; the callback is total, so nothing escapes its
`try`/`except` boundary. -/
theorem notify_malformed_drops (run : String → ProcOutcome) (q : List Confirmation) :
    on_radio_request_notify run .decodeFail q = ⟨q, []⟩
    ∧ on_radio_request_notify run .parseFail q = ⟨q, []⟩
    ∧ on_radio_request_notify run .nonObject q = ⟨q, []⟩ :=
  ⟨rfl, rfl, rfl⟩

/-- C5: `adb_exec` is total (modelled as a total function: every process
outcome maps to a result), its success flag is `true` exactly when the
process completed with return code zero, a timeout yields
`(false, "timeout")`, and a spawn exception `e` yields `(false, e)`. -/
theorem adb_exec_total_spec (run : String → ProcOutcome) (cmd : String) :
    ((adb_exec run cmd).1 = true ↔
      ∃ out, run ("adb shell " ++ cmd) = ProcOutcome.completed 0 out)
    ∧ (run ("adb shell " ++ cmd) = ProcOutcome.timedOut →
      adb_exec run cmd = (false, "timeout"))
    ∧ (∀ e, run ("adb shell " ++ cmd) = ProcOutcome.spawnError e →
      adb_exec run cmd = (false, e)) := by
  rcases h : run ("adb shell " ++ cmd) with ⟨rc, out⟩ | _ | e <;>
    refine ⟨?_, ?_, ?_⟩ <;> simp_all [adb_exec]

/-- Witness for C5: timeout and spawn-failure outcomes on a concrete
command both collapse to `success = false` with the descriptive output. -/
theorem adb_exec_total_spec_witness :
    adb_exec (fun _ => ProcOutcome.timedOut) "svc wifi disable" = (false, "timeout")
    ∧ adb_exec (fun _ => ProcOutcome.spawnError "adb not found") "svc wifi disable" =
      (false, "adb not found") :=
  ⟨(adb_exec_total_spec (fun _ => ProcOutcome.timedOut) "svc wifi disable").2.1 rfl,
   (adb_exec_total_spec (fun _ => ProcOutcome.spawnError "adb not found")
      "svc wifi disable").2.2 "adb not found" rfl⟩

/-- C6 counterexample: when the executor fails, `handle_radio_request`
performs no post-wait at all for `enable_bt` (not the claimed 2 units)
and none for `enable_wifi` (not the claimed 3 units): the `time.sleep`
calls sit inside the success branches only. -/
theorem enable_post_wait_counterexample :
    (handle_radio_request (fun _ => ProcOutcome.timedOut) "enable_bt" "app request").waits = []
    ∧ (handle_radio_request (fun _ => ProcOutcome.timedOut) "enable_bt" "app request").waits ≠ [2]
    ∧ (handle_radio_request (fun _ => ProcOutcome.timedOut) "enable_wifi" "").waits = []
    ∧ (handle_radio_request (fun _ => ProcOutcome.timedOut) "enable_wifi" "").waits ≠ [3] := by
  refine ⟨rfl, ?_, rfl, ?_⟩ <;> decide

/-- C6 amended: an `enable_bt` request performs the 2-time-unit post-wait
before returning exactly when its executor call succeeds, and an
`enable_wifi` request likewise performs the 3-time-unit post-wait exactly
when its executor call succeeds; on executor failure neither waits. -/
theorem enable_post_wait_on_success (run : String → ProcOutcome) (reason : String) :
    ((adb_exec run "svc bluetooth enable").1 = true →
      (handle_radio_request run "enable_bt" reason).waits = [2])
    ∧ ((adb_exec run "svc bluetooth enable").1 = false →
      (handle_radio_request run "enable_bt" reason).waits = [])
    ∧ ((adb_exec run "svc wifi enable").1 = true →
      (handle_radio_request run "enable_wifi" reason).waits = [3])
    ∧ ((adb_exec run "svc wifi enable").1 = false →
      (handle_radio_request run "enable_wifi" reason).waits = []) := by
  refine ⟨?_, ?_, ?_, ?_⟩ <;> intro h <;> simp [handle_radio_request, h]

/-- Witness for the amended C6: with an executor that always completes
with return code zero, the waits are 2 units for `enable_bt` and 3 units
for `enable_wifi`. -/
theorem enable_post_wait_on_success_witness :
    (handle_radio_request (fun _ => ProcOutcome.completed 0 "") "enable_bt" "x").waits = [2]
    ∧ (handle_radio_request (fun _ => ProcOutcome.completed 0 "") "enable_wifi" "x").waits = [3] :=
  ⟨(enable_post_wait_on_success (fun _ => ProcOutcome.completed 0 "") "x").1 rfl,
   (enable_post_wait_on_success (fun _ => ProcOutcome.completed 0 "") "x").2.2.1 rfl⟩

/-- C7: draining the pending-commands queue removes and returns all
queued items in FIFO (insertion) order and leaves the queue empty, and
draining an empty queue twice in a row yields two empty sequences (the
drain is a total function, so no error is possible). -/
theorem drainAll_fifo_and_empties (q : List Confirmation) :
    drainAll q = (q, [])
    ∧ drainAll ([] : List Confirmation) = ([], [])
    ∧ drainAll (drainAll ([] : List Confirmation)).2 = ([], []) := by
  refine ⟨?_, rfl, rfl⟩
  induction q with
  | nil => rfl
  | cons c rest ih => simp [drainAll, ih]

/-- C8: `send_command` with no client or a disconnected client is a no-op
that attempts zero transport writes (and, being total, does not raise);
with a connected client whose write raises, the payload is dropped after
exactly one attempt — no retry, no exception propagated. -/
theorem send_command_effect_spec (w : WriteOutcome) :
    send_command none w = .noSend
    ∧ send_command (some false) w = .noSend
    ∧ writeAttempts (send_command none w) = 0
    ∧ writeAttempts (send_command (some false) w) = 0
    ∧ (∀ e, send_command (some true) (.error e) = .writeDropped e)
    ∧ (∀ e, writeAttempts (send_command (some true) (.error e)) = 1) :=
  ⟨rfl, rfl, rfl, rfl, fun _ => rfl, fun _ => rfl⟩

/-- C9: in `run_loop`-style draining, an item is popped from the queue
before its send is attempted, so the delivered items are exactly those
whose send succeeds, the queue always ends empty, and an item whose send
fails is in neither the delivered sequence nor the final queue — it is
permanently lost, never re-enqueued. -/
theorem run_loop_drain_lossy (sendOk : Confirmation → Bool) (q : List Confirmation) :
    run_loop_drain sendOk q = (q.filter sendOk, [])
    ∧ ∀ c ∈ q, sendOk c = false →
        c ∉ (run_loop_drain sendOk q).1 ∧ c ∉ (run_loop_drain sendOk q).2 := by
  have heq : run_loop_drain sendOk q = (q.filter sendOk, []) := by
    induction q with
    | nil => rfl
    | cons c rest ih =>
      rcases h : sendOk c <;> simp [run_loop_drain, ih, h, List.filter_cons]
  refine ⟨heq, fun c _ hfail => ?_⟩
  rw [heq]
  refine ⟨fun hmem => ?_, by simp⟩
  have := List.of_mem_filter hmem
  simp [hfail] at this

/-- Witness for C9: a concrete confirmation whose send fails ends up
neither delivered nor still queued. -/
theorem run_loop_drain_lossy_witness :
    (⟨"BT_READY", "ble-bridge", "ADB enable_bt OK"⟩ : Confirmation) ∉
      (run_loop_drain (fun _ => false)
        [⟨"BT_READY", "ble-bridge", "ADB enable_bt OK"⟩]).1
    ∧ (⟨"BT_READY", "ble-bridge", "ADB enable_bt OK"⟩ : Confirmation) ∉
      (run_loop_drain (fun _ => false)
        [⟨"BT_READY", "ble-bridge", "ADB enable_bt OK"⟩]).2 :=
  (run_loop_drain_lossy (fun _ => false)
      [⟨"BT_READY", "ble-bridge", "ADB enable_bt OK"⟩]).2
    ⟨"BT_READY", "ble-bridge", "ADB enable_bt OK"⟩ (by simp) rfl

/-- C10: a payload that parses to an object with no `action` field (such
as `"{}"`, modelled as `object none none`) is not dropped: the defaults
make the action the literal string `"unknown"`, so exactly one
confirmation `UNKNOWN / ble-bridge / "Unknown action: unknown"` is
enqueued and zero ADB commands are executed. -/
theorem notify_missing_action_defaults (run : String → ProcOutcome)
    (q : List Confirmation) :
    on_radio_request_notify run (.object none none) q =
      ⟨q ++ [⟨"UNKNOWN", "ble-bridge", "Unknown action: unknown"⟩], []⟩ := by
  simp [on_radio_request_notify, handle_radio_request]

end SdnBleBridge
